import Mathlib

/-!
Shallow embedding of `src/setup_hr_db.py` (heart-rate-analysis), the
synchronization engine that backfills per-day Fitbit intraday heart-rate
payloads into a relational store.

Modelling conventions:
* Calendar dates are represented by their proleptic-Gregorian ordinal
  (the number Python's `date.toordinal()` returns), as an `Int`;
  `dateOrdinal y m d` computes that ordinal, following CPython's
  `datetime` module (`_days_before_year`, `_days_before_month`).
  `timedelta` arithmetic on dates is then ordinary integer arithmetic.
* Python exceptions become the `PyError` inductive; a function that can
  raise returns `Except PyError _`.
* The relational store (table `heart_rate`, primary key `date`) becomes a
  list of rows in insertion order; an insert whose key duplicates an
  existing row, or whose key is NULL, raises `IntegrityError`
  (uniqueness / NOT NULL violation on the primary key).
* An ISO date string such as "2016-02-01" inside a payload is modelled by
  the ordinal of the date it denotes (the `dateTime` field), `none`
  standing for an absent key.
* External collaborators (the remote fetch, the probe, the token-refresh
  exchange) are parameters of the functions that call them; their outcomes
  are `Except` values.
-/

/-- Python exceptions raised by the code paths modelled here. -/
inductive PyError where
  /-- Python `KeyError`, from `data['activities-heart']` on a dict missing the key. -/
  | keyError : PyError
  /-- Python `IndexError`, from `[0]` on an empty list. -/
  | indexError : PyError
  /-- Python `AttributeError`, from `.get`/`.date` on `None`. -/
  | attributeError : PyError
  /-- the `sqlalchemy.exc.IntegrityError`, a primary-key violation on insert. -/
  | integrityError : PyError
  /-- Python `ZeroDivisionError`, from `1.0 / float(0)`. -/
  | zeroDivisionError : PyError
  /-- any exception raised by the remote fetch (`client.intraday_time_series`). -/
  | fetchError : PyError
deriving DecidableEq

deriving instance DecidableEq for Except

/-- Leap-year test (CPython `datetime._is_leap`). -/
def isLeap (y : Nat) : Bool := y % 4 == 0 && (y % 100 != 0 || y % 400 == 0)

/-- Days in the proleptic Gregorian calendar before January 1st of year `y`
(CPython `datetime._days_before_year`). -/
def daysBeforeYear (y : Nat) : Nat :=
  (y - 1) * 365 + (y - 1) / 4 - (y - 1) / 100 + (y - 1) / 400

/-- Number of days in month `m` of year `y` (CPython `datetime._days_in_month`). -/
def daysInMonth (y m : Nat) : Nat :=
  if m == 2 then (if isLeap y then 29 else 28)
  else if m == 4 || m == 6 || m == 9 || m == 11 then 30
  else 31

/-- Days in year `y` strictly before the first of month `m`
(CPython `datetime._days_before_month`). -/
def daysBeforeMonth (y m : Nat) : Nat :=
  (List.range (m - 1)).foldl (fun acc k => acc + daysInMonth y (k + 1)) 0

/-- Proleptic Gregorian ordinal of the calendar date `y-m-d`, as Python's
`date(y, m, d).toordinal()` computes it; `dateOrdinal 1 1 1 = 1`. -/
def dateOrdinal (y m d : Nat) : Int :=
  (daysBeforeYear y + daysBeforeMonth y m + d : Nat)

/-- The generator `daterange(start_date, end_date)` from the source, as the
list a caller obtains by exhausting it: Python's
`[start_date + timedelta(n) for n in range(int((end_date - start_date).days) + 1)]`
over date ordinals.  `Int.toNat` models Python's `range`, which is empty for a
non-positive argument. -/
def daterange (start_date end_date : Int) : List Int :=
  (List.range (end_date - start_date + 1).toNat).map (fun n : Nat => start_date + (n : Int))

/-!
## The store and the fetch payload

The `heart_rate` table (`HeartRate` in the source: `date` is the primary key,
`r_hr` a nullable integer, `hr` a JSONB document holding the intraday
`dataset`).  A payload returned by `client.intraday_time_series` is a dict
whose expected shape `add_hr_to_db` navigates:
`data['activities-heart'][0]` (a dict with keys `dateTime` and `value`,
the latter a dict with key `restingHeartRate`), and
`data['activities-heart-intraday']` (a dict with key `dataset`).
`Option` models an absent key; `.get` on an absent key is `none`,
subscripting an absent key raises `KeyError`.
-/

/-- One intraday sample `{time, value}` of the `dataset` list. -/
structure Sample where
  time : Int
  value : Int
deriving DecidableEq

/-- A row of the `heart_rate` table. -/
structure HeartRateRow where
  /-- the `date` primary-key column (a NULL date is modelled as `none`). -/
  date : Option Int
  /-- the nullable `r_hr` integer column. -/
  r_hr : Option Int
  /-- the `hr` JSONB column (the raw `dataset`; `none` when the payload's
  `dataset` key was absent, i.e. SQL NULL). -/
  hr : Option (List Sample)
deriving DecidableEq

/-- The dict `data['activities-heart'][0].get('value')`. -/
structure HeartValue where
  restingHeartRate : Option Int
deriving DecidableEq

/-- One entry of the `activities-heart` list. -/
structure HeartEntry where
  dateTime : Option Int
  value : Option HeartValue
deriving DecidableEq

/-- The dict `data['activities-heart-intraday']`. -/
structure Intraday where
  dataset : Option (List Sample)
deriving DecidableEq

/-- A fetch payload: the dict returned by `client.intraday_time_series`.
`none` in either field models the key being absent from the dict. -/
structure Payload where
  activitiesHeart : Option (List HeartEntry)
  activitiesHeartIntraday : Option Intraday
deriving DecidableEq

/-- The field-extraction part of `add_hr_to_db` (source lines 67–69), with
Python's evaluation order and failure modes:
`data['activities-heart']` raises `KeyError` when the key is absent;
`[0]` raises `IndexError` on an empty list; `.get('dateTime')` is `None` when
absent; `data.get('activities-heart-intraday').get('dataset')` raises
`AttributeError` when the intraday key is absent (`.get` on `None`);
`...get('value').get('restingHeartRate')` raises `AttributeError` when the
`value` key is absent (but is merely `None` when only `restingHeartRate`
is absent). -/
def extractRow (data : Payload) : Except PyError HeartRateRow :=
  match data.activitiesHeart with
  | none => .error .keyError
  | some ah =>
    match ah with
    | [] => .error .indexError
    | e0 :: _ =>
      match data.activitiesHeartIntraday with
      | none => .error .attributeError
      | some intr =>
        match e0.value with
        | none => .error .attributeError
        | some v =>
          .ok { date := e0.dateTime, r_hr := v.restingHeartRate, hr := intr.dataset }

/-- The non-NULL dates currently stored, in insertion order. -/
def storedDates (db : List HeartRateRow) : List Int := db.filterMap HeartRateRow.date

/-- The commit `session.add(obj); session.commit()` against the `heart_rate`
table: the store raises `IntegrityError` when the `date` primary key is NULL
(NOT NULL violation) or duplicates an existing row (uniqueness violation);
otherwise the row is appended. -/
def insertRow (db : List HeartRateRow) (row : HeartRateRow) :
    Except PyError (List HeartRateRow) :=
  match row.date with
  | none => .error .integrityError
  | some d => if d ∈ storedDates db then .error .integrityError else .ok (db ++ [row])

/-- The writer `add_hr_to_db(data)` from the source: extract the fields,
build the `HeartRate` object and commit it.  Any exception of the extraction
or of the commit propagates to the caller. -/
def add_hr_to_db (db : List HeartRateRow) (data : Payload) :
    Except PyError (List HeartRateRow) :=
  match extractRow data with
  | .error e => .error e
  | .ok row => insertRow db row

/-- The persistence loop of `main` (source lines 179–183):
`for day in x: try: add_hr_to_db(day) except exc.IntegrityError: print(...)`.
Only `IntegrityError` is caught (logged and swallowed, the loop continues
with the store unchanged); every other exception propagates and aborts the
remaining iterations. -/
def processDays (db : List HeartRateRow) : List Payload → Except PyError (List HeartRateRow)
  | [] => .ok db
  | p :: ps =>
    match add_hr_to_db db p with
    | .ok db' => processDays db' ps
    | .error .integrityError => processDays db ps
    | .error e => .error e

/-- The watermark query `get_most_recent_date(session, obj)`:
`session.query(obj).order_by(desc(obj.date)).first()` returns the row with
the greatest `date` (or `None` when the table has no rows, in which case
`d.date` raises `AttributeError`, caught to return the default
`date(2015, 12, 26)`).  On the list model the first row of the
descending-by-date ordering carries the maximum stored date. -/
def get_most_recent_date (db : List HeartRateRow) : Int :=
  match storedDates db with
  | [] => dateOrdinal 2015 12 26
  | d :: ds => ds.foldl max d

/-- The decorator factory `rate_limited(maxPerSecond)` up to the computation
of `minInterval` (source line 45): `1.0 / float(maxPerSecond)` raises
`ZeroDivisionError` when `maxPerSecond` is zero, and otherwise the decorator
is built around the computed interval with no further validation.
Real-valued quantities are modelled as rationals. -/
def rate_limited (maxPerSecond : ℚ) : Except PyError ℚ :=
  if maxPerSecond = 0 then .error .zeroDivisionError else .ok (1 / maxPerSecond)

/-- The per-date fetches of `get_intra_hr`'s custom-range branch (source line
153): the list comprehension `[get_daily_data(client, x) for x in dr]`
evaluates the fetches left to right; the first exception propagates out of
the comprehension, abandoning the remaining dates, and no list is produced. -/
def fetchAll (fetch : Int → Except PyError Payload) :
    List Int → Except PyError (List Payload)
  | [] => .ok []
  | d :: ds =>
    match fetch d with
    | .error e => .error e
    | .ok p =>
      match fetchAll fetch ds with
      | .error e => .error e
      | .ok ps => .ok (p :: ps)

/-- The scheduler `get_intra_hr(client, start_date, end_date)`, the
rate-limiter's wall-clock waiting ignored: with both bounds supplied
(`all([start_date, end_date])` is true, date objects being truthy) it
fetches each date of `daterange`; otherwise it fetches yesterday only.
`fetch` stands for `get_daily_data(client, ·)` and `today` for
`date.today()`. -/
def get_intra_hr (fetch : Int → Except PyError Payload) (today : Int) :
    Option Int → Option Int → Except PyError (List Payload)
  | some s, some e => fetchAll fetch (daterange s e)
  | some _, none => match fetch (today - 1) with
    | .error e => .error e
    | .ok p => .ok [p]
  | none, e? => match fetch (today - 1) with
    | .error e => .error e
    | .ok p =>
      match e? with
      | _ => .ok [p]

/-- The credential record held in `tokens.json` (the dict `get_tokens`
returns). -/
structure Tokens where
  CLIENT_ID : String
  CLIENT_SECRET : String
  ACCESS_TOKEN : String
  REFRESH_TOKEN : String
deriving DecidableEq

/-- The dict returned by `client.refresh_token()`: the new token pair. -/
structure RefreshParams where
  access_token : String
  refresh_token : String
deriving DecidableEq

/-- What a `set_client` run produces: the token pair the returned client
holds, the full documents written to `tokens.json` (in order), and how many
times `client.refresh_token()` was called. -/
structure SetClientResult where
  clientTokens : Tokens
  fileWrites : List Tokens
  refreshCalls : Nat
deriving DecidableEq

/-- The refresher `update_tokens(authd_client, tokens)`: call
`client.refresh_token()` (its outcome is the `refreshAnswer` parameter; an
exception there propagates, the source has no handler around it), store both
new tokens in the dict, and `json.dump` the whole dict to `tokens.json`,
overwriting the file in one write.  Returns the updated pair and the list of
file writes performed. -/
def update_tokens (tokens : Tokens) (refreshAnswer : Except PyError RefreshParams) :
    Except PyError (Tokens × List Tokens) :=
  match refreshAnswer with
  | .error e => .error e
  | .ok params =>
    .ok ({ tokens with REFRESH_TOKEN := params.refresh_token,
                       ACCESS_TOKEN := params.access_token },
         [{ tokens with REFRESH_TOKEN := params.refresh_token,
                        ACCESS_TOKEN := params.access_token }])

/-- The factory `set_client()`: build a client from the stored tokens, probe
it with `client.sleep()`, and on any probe exception (`except:` is bare) call
`update_tokens` exactly once; an exception raised by the refresh itself is
raised inside the handler and therefore propagates.  `probeOk` is the
probe's outcome and `refreshAnswer` the remote refresh exchange's. -/
def set_client (tokens : Tokens) (probeOk : Bool)
    (refreshAnswer : Except PyError RefreshParams) : Except PyError SetClientResult :=
  if probeOk then .ok { clientTokens := tokens, fileWrites := [], refreshCalls := 0 }
  else
    match update_tokens tokens refreshAnswer with
    | .error e => .error e
    | .ok (t, writes) => .ok { clientTokens := t, fileWrites := writes, refreshCalls := 1 }

/-- The entry point `main()` with the external collaborators as parameters:
build the client (`set_client`), compute
`start_date = get_most_recent_date(session_factory(), HeartRate)` and
`end_date = date.today() - timedelta(days=1)`, fetch the whole range with
`get_intra_hr`, then run the persistence loop over the payloads.  `fetch`
takes the client's token pair so that which client performs the fetches is
visible in the model. -/
def mainRun (tokens : Tokens) (probeOk : Bool)
    (refreshAnswer : Except PyError RefreshParams)
    (fetch : Tokens → Int → Except PyError Payload) (today : Int)
    (db : List HeartRateRow) : Except PyError (List HeartRateRow) :=
  match set_client tokens probeOk refreshAnswer with
  | .error e => .error e
  | .ok r =>
    match get_intra_hr (fetch r.clientTokens) today
        (some (get_most_recent_date db)) (some (today - 1)) with
    | .error e => .error e
    | .ok x => processDays db x

/-!
## Concrete inputs for witnesses and counterexamples
-/

/-- A well-formed payload for the date of ordinal 100, resting heart rate 58. -/
def payloadA : Payload :=
  { activitiesHeart :=
      some [{ dateTime := some 100, value := some { restingHeartRate := some 58 } }],
    activitiesHeartIntraday := some { dataset := some [{ time := 0, value := 61 }] } }

/-- The row `add_hr_to_db` builds from `payloadA`. -/
def rowA : HeartRateRow :=
  { date := some 100, r_hr := some 58, hr := some [{ time := 0, value := 61 }] }

/-- A payload whose `activities-heart-intraday` key is absent. -/
def payloadNoIntraday : Payload :=
  { activitiesHeart :=
      some [{ dateTime := some 101, value := some { restingHeartRate := some 60 } }],
    activitiesHeartIntraday := none }

/-- A fetch collaborator that fails on date 0 and succeeds elsewhere. -/
def fetchFail0 : Int → Except PyError Payload :=
  fun d => if d = 0 then .error .fetchError else .ok payloadA

/-- A stored row dated 2015-12-30. -/
def rowDec30 : HeartRateRow :=
  { date := some (dateOrdinal 2015 12 30), r_hr := none, hr := none }

/-- A stored row dated 2016-01-02. -/
def rowJan02 : HeartRateRow :=
  { date := some (dateOrdinal 2016 1 2), r_hr := some 61, hr := some [] }

/-- A stored row dated 2030-01-01, a date in the future of 2026. -/
def rowFuture : HeartRateRow :=
  { date := some (dateOrdinal 2030 1 1), r_hr := none, hr := none }

/-!
## Helper lemmas
-/

theorem daterange_length (s e : Int) (h : s ≤ e) :
    (daterange s e).length = (e - s).toNat + 1 := by
  unfold daterange
  rw [List.length_map, List.length_range]
  omega

theorem daterange_get (s e : Int) (i : Nat) (hi : i < (daterange s e).length) :
    (daterange s e).get ⟨i, hi⟩ = s + i := by
  unfold daterange at hi ⊢
  rw [List.get_eq_getElem, List.getElem_map, List.getElem_range]

theorem daterange_head (s e : Int) (h : s ≤ e) :
    (daterange s e).head? = some s := by
  unfold daterange
  have h1 : (e - s + 1).toNat = (e - s).toNat + 1 := by omega
  rw [h1, List.range_succ_eq_map]
  simp

theorem foldl_max_mem (ds : List Int) (d : Int) :
    ds.foldl max d = d ∨ ds.foldl max d ∈ ds := by
  induction ds generalizing d with
  | nil => exact Or.inl rfl
  | cons a as ih =>
    rcases ih (max d a) with h | h
    · rcases max_choice d a with h2 | h2
      · exact Or.inl (by rw [List.foldl_cons, h, h2])
      · refine Or.inr ?_
        rw [List.foldl_cons, h, h2]
        exact List.mem_cons_self a as
    · exact Or.inr (List.mem_cons_of_mem a h)

theorem le_foldl_max (ds : List Int) (d : Int) :
    d ≤ ds.foldl max d ∧ ∀ x ∈ ds, x ≤ ds.foldl max d := by
  induction ds generalizing d with
  | nil =>
    refine ⟨le_refl d, ?_⟩
    intro x hx
    cases hx
  | cons a as ih =>
    obtain ⟨h1, h2⟩ := ih (max d a)
    refine ⟨le_trans (le_max_left d a) h1, ?_⟩
    intro x hx
    rcases List.mem_cons.mp hx with rfl | hx
    · exact le_trans (le_max_right d x) h1
    · exact h2 x hx

theorem get_most_recent_date_mem (db : List HeartRateRow)
    (h : storedDates db ≠ []) :
    get_most_recent_date db ∈ storedDates db := by
  unfold get_most_recent_date
  cases hsd : storedDates db with
  | nil => exact absurd hsd h
  | cons a as =>
    show as.foldl max a ∈ a :: as
    rcases foldl_max_mem as a with h1 | h1
    · rw [h1]
      exact List.mem_cons_self a as
    · exact List.mem_cons_of_mem a h1

theorem get_most_recent_date_ge (db : List HeartRateRow) :
    ∀ d ∈ storedDates db, d ≤ get_most_recent_date db := by
  intro d hd
  unfold get_most_recent_date
  cases hsd : storedDates db with
  | nil =>
    rw [hsd] at hd
    cases hd
  | cons a as =>
    rw [hsd] at hd
    show d ≤ as.foldl max a
    rcases List.mem_cons.mp hd with rfl | hmem
    · exact (le_foldl_max as d).1
    · exact (le_foldl_max as a).2 d hmem

theorem extractRow_not_integrity (p : Payload) (e : PyError)
    (h : extractRow p = .error e) : e ≠ .integrityError := by
  unfold extractRow at h
  split at h
  · injection h with h2
    subst h2
    decide
  · split at h
    · injection h with h2
      subst h2
      decide
    · split at h
      · injection h with h2
        subst h2
        decide
      · split at h
        · injection h with h2
          subst h2
          decide
        · cases h

theorem extractRow_error_of_no_intraday (q : Payload)
    (hq : q.activitiesHeartIntraday = none) :
    ∃ e, extractRow q = .error e := by
  cases hah : q.activitiesHeart with
  | none =>
    refine ⟨.keyError, ?_⟩
    unfold extractRow
    rw [hah]
  | some ah =>
    cases ah with
    | nil =>
      refine ⟨.indexError, ?_⟩
      unfold extractRow
      rw [hah]
    | cons e0 rest =>
      refine ⟨.attributeError, ?_⟩
      unfold extractRow
      rw [hah, hq]

theorem insertRow_ok_eq (db : List HeartRateRow) (row : HeartRateRow)
    (db1 : List HeartRateRow) (h : insertRow db row = .ok db1) :
    db1 = db ++ [row] ∧ ∃ d, row.date = some d ∧ d ∉ storedDates db := by
  unfold insertRow at h
  cases hd : row.date with
  | none =>
    rw [hd] at h
    cases h
  | some d =>
    rw [hd] at h
    replace h : (if d ∈ storedDates db then
        (Except.error PyError.integrityError : Except PyError (List HeartRateRow))
      else Except.ok (db ++ [row])) = .ok db1 := h
    by_cases hmem : d ∈ storedDates db
    · rw [if_pos hmem] at h
      cases h
    · rw [if_neg hmem] at h
      injection h with h2
      exact ⟨h2.symm, d, rfl, hmem⟩

theorem add_hr_ok_eq (db : List HeartRateRow) (p : Payload)
    (db1 : List HeartRateRow) (h : add_hr_to_db db p = .ok db1) :
    ∃ row, extractRow p = .ok row ∧ db1 = db ++ [row] ∧
      ∃ d, row.date = some d ∧ d ∉ storedDates db := by
  unfold add_hr_to_db at h
  cases hex : extractRow p with
  | error e =>
    rw [hex] at h
    cases h
  | ok row =>
    rw [hex] at h
    obtain ⟨heq, hd⟩ := insertRow_ok_eq db row db1 h
    exact ⟨row, rfl, heq, hd⟩

theorem add_hr_error_integrity (db : List HeartRateRow) (p : Payload)
    (h : add_hr_to_db db p = .error .integrityError) :
    ∃ row, extractRow p = .ok row ∧
      (row.date = none ∨ ∃ d, row.date = some d ∧ d ∈ storedDates db) := by
  unfold add_hr_to_db at h
  cases hex : extractRow p with
  | error e =>
    rw [hex] at h
    injection h with h2
    exact absurd h2 (extractRow_not_integrity p e hex)
  | ok row =>
    rw [hex] at h
    replace h : insertRow db row = .error .integrityError := h
    unfold insertRow at h
    cases hd : row.date with
    | none => exact ⟨row, rfl, Or.inl hd⟩
    | some d =>
      rw [hd] at h
      by_cases hmem : d ∈ storedDates db
      · exact ⟨row, rfl, Or.inr ⟨d, hd, hmem⟩⟩
      · replace h : (if d ∈ storedDates db then
            (Except.error PyError.integrityError : Except PyError (List HeartRateRow))
          else Except.ok (db ++ [row])) = .error .integrityError := h
        rw [if_neg hmem] at h
        cases h

theorem add_hr_dup_mono (db db2 : List HeartRateRow) (p : Payload)
    (h : add_hr_to_db db p = .error .integrityError)
    (hsub : ∀ d, d ∈ storedDates db → d ∈ storedDates db2) :
    add_hr_to_db db2 p = .error .integrityError := by
  obtain ⟨row, hex, hcase⟩ := add_hr_error_integrity db p h
  unfold add_hr_to_db
  rw [hex]
  show insertRow db2 row = .error .integrityError
  unfold insertRow
  rcases hcase with hnone | ⟨d, hd, hmem⟩
  · rw [hnone]
  · rw [hd]
    simp [hsub d hmem]

theorem processDays_dates_mono (ps : List Payload) (db db' : List HeartRateRow)
    (h : processDays db ps = .ok db') :
    ∀ d, d ∈ storedDates db → d ∈ storedDates db' := by
  induction ps generalizing db with
  | nil =>
    unfold processDays at h
    injection h with h
    subst h
    exact fun d hd => hd
  | cons q qs ih =>
    unfold processDays at h
    cases h1 : add_hr_to_db db q with
    | ok db1 =>
      rw [h1] at h
      intro d hd
      refine ih db1 h d ?_
      obtain ⟨row, _, heq, _⟩ := add_hr_ok_eq db q db1 h1
      subst heq
      simp only [storedDates, List.filterMap_append]
      exact List.mem_append_left _ hd
    | error e =>
      cases e with
      | integrityError =>
        rw [h1] at h
        exact ih db h
      | keyError => rw [h1] at h; cases h
      | indexError => rw [h1] at h; cases h
      | attributeError => rw [h1] at h; cases h
      | zeroDivisionError => rw [h1] at h; cases h
      | fetchError => rw [h1] at h; cases h

theorem processDays_second_run_dup (ps : List Payload) (db db' : List HeartRateRow)
    (h : processDays db ps = .ok db') :
    ∀ p ∈ ps, add_hr_to_db db' p = .error .integrityError := by
  induction ps generalizing db with
  | nil =>
    intro p hp
    cases hp
  | cons q qs ih =>
    intro p hp
    unfold processDays at h
    cases h1 : add_hr_to_db db q with
    | ok db1 =>
      rw [h1] at h
      rcases List.mem_cons.mp hp with rfl | hmem
      · obtain ⟨row, hex, heq, d, hd, _⟩ := add_hr_ok_eq db p db1 h1
        have hdin : d ∈ storedDates db' := by
          refine processDays_dates_mono qs db1 db' h d ?_
          subst heq
          simp only [storedDates, List.filterMap_append]
          refine List.mem_append_right _ ?_
          simp [hd]
        unfold add_hr_to_db
        rw [hex]
        show insertRow db' row = .error .integrityError
        unfold insertRow
        rw [hd]
        simp [hdin]
      · exact ih db1 h p hmem
    | error e =>
      cases e with
      | integrityError =>
        rw [h1] at h
        rcases List.mem_cons.mp hp with rfl | hmem
        · exact add_hr_dup_mono db db' p h1 (processDays_dates_mono qs db db' h)
        · exact ih db h p hmem
      | keyError => rw [h1] at h; cases h
      | indexError => rw [h1] at h; cases h
      | attributeError => rw [h1] at h; cases h
      | zeroDivisionError => rw [h1] at h; cases h
      | fetchError => rw [h1] at h; cases h

theorem processDays_all_dup (ps : List Payload) (db : List HeartRateRow)
    (h : ∀ p ∈ ps, add_hr_to_db db p = .error .integrityError) :
    processDays db ps = .ok db := by
  induction ps with
  | nil => rfl
  | cons q qs ih =>
    have hq := h q (List.mem_cons_self q qs)
    simp only [processDays, hq]
    exact ih (fun p hp => h p (List.mem_cons_of_mem q hp))

theorem fetchAll_error_of_mem (fetch : Int → Except PyError Payload)
    (ds : List Int) (d : Int) (e : PyError)
    (hd : d ∈ ds) (h : fetch d = .error e) :
    ∃ e', fetchAll fetch ds = .error e' := by
  induction ds with
  | nil => cases hd
  | cons a as ih =>
    cases h1 : fetch a with
    | error e1 => exact ⟨e1, by simp [fetchAll, h1]⟩
    | ok p =>
      have hda : d ∈ as := by
        rcases List.mem_cons.mp hd with rfl | hmem
        · rw [h] at h1
          cases h1
        · exact hmem
      obtain ⟨e', he'⟩ := ih hda
      exact ⟨e', by simp [fetchAll, h1, he']⟩

/-!
## The claims
-/

/-- C3: for every pair of dates with `start_date ≤ end_date`, `daterange`
yields exactly `(end_date − start_date).days + 1` dates, inclusive of both
endpoints, with the `i`-th element equal to `start_date + i` (contiguous
calendar days, no gaps), and strictly ascending (hence no duplicates). -/
theorem daterange_inclusive_ascending_contiguous (s e : Int) (h : s ≤ e) :
    (daterange s e).length = (e - s).toNat + 1 ∧
    s ∈ daterange s e ∧ e ∈ daterange s e ∧
    (∀ i (hi : i < (daterange s e).length), (daterange s e).get ⟨i, hi⟩ = s + i) ∧
    List.Pairwise (· < ·) (daterange s e) := by
  refine ⟨daterange_length s e h, ?_, ?_, daterange_get s e, ?_⟩
  · have h0 : 0 < (daterange s e).length := by rw [daterange_length s e h]; omega
    have hm := List.get_mem (daterange s e) 0 h0
    rw [daterange_get s e 0 h0] at hm
    simpa using hm
  · have hl : (daterange s e).length = (e - s).toNat + 1 := daterange_length s e h
    have h0 : (e - s).toNat < (daterange s e).length := by omega
    have hm := List.get_mem (daterange s e) ((e - s).toNat) h0
    rw [daterange_get s e _ h0] at hm
    have : s + ((e - s).toNat : Int) = e := by omega
    rwa [this] at hm
  · rw [List.pairwise_iff_get]
    intro i j hij
    rw [daterange_get s e i i.isLt, daterange_get s e j j.isLt]
    omega

/-- Witness for C3 at `s = 0`, `e = 2`: the range `[0, 1, 2]`. -/
theorem daterange_inclusive_ascending_contiguous_witness :
    (0 : Int) ≤ 2 ∧
    ((daterange 0 2).length = ((2 : Int) - 0).toNat + 1 ∧
     (0 : Int) ∈ daterange 0 2 ∧ (2 : Int) ∈ daterange 0 2 ∧
     (∀ i (hi : i < (daterange 0 2).length), (daterange 0 2).get ⟨i, hi⟩ = 0 + i) ∧
     List.Pairwise (· < ·) (daterange 0 2)) :=
  ⟨by decide, daterange_inclusive_ascending_contiguous 0 2 (by decide)⟩

/-- C4: for every pair of dates with `start_date > end_date`, `daterange`
yields the empty sequence and raises nothing (Python's `range` of a
non-positive count is empty, so the generator body never runs). -/
theorem daterange_empty_of_gt (s e : Int) (h : e < s) : daterange s e = [] := by
  unfold daterange
  have h1 : (e - s + 1).toNat = 0 := by omega
  rw [h1]
  rfl

/-- Witness for C4 at `s = 5`, `e = 3`. -/
theorem daterange_empty_of_gt_witness : (3 : Int) < 5 ∧ daterange 5 3 = [] :=
  ⟨by decide, daterange_empty_of_gt 5 3 (by decide)⟩

/-- C1: re-running the persistence loop over payloads whose dates are
already persisted leaves the stored record set unchanged and does not
abort: after a run that ends in store `db'`, every payload of an identical
second run resolves as a duplicate — its single-record insert raises the
uniqueness violation `IntegrityError`, which the loop catches and does not
propagate, continuing with the store unchanged — so the second run
completes with exactly the persisted record set of the first. -/
theorem rerun_leaves_store_unchanged (db : List HeartRateRow) (ps : List Payload)
    (db' : List HeartRateRow) (h : processDays db ps = .ok db') :
    (∀ p ∈ ps, add_hr_to_db db' p = .error .integrityError) ∧
    processDays db' ps = .ok db' := by
  have hdup := processDays_second_run_dup ps db db' h
  exact ⟨hdup, processDays_all_dup ps db' hdup⟩

/-- Witness for C1: a first run from the empty store persisting `payloadA`. -/
theorem rerun_leaves_store_unchanged_witness :
    processDays [] [payloadA] = .ok [rowA] ∧
    ((∀ p ∈ [payloadA], add_hr_to_db [rowA] p = .error .integrityError) ∧
     processDays [rowA] [payloadA] = .ok [rowA]) :=
  ⟨by decide, rerun_leaves_store_unchanged [] [payloadA] [rowA] (by decide)⟩

/-- C2 counterexample: over the two-day plan `[0, 1]`, with a fetch that
fails on day 0 and would succeed on day 1, `get_intra_hr` propagates the
failure: the result is the error, not a partial result set for the date
that would have succeeded — refuting the claim that a fetch failure on one
date does not abort the fetching of the remaining dates. -/
theorem fetch_failure_counterexample :
    get_intra_hr fetchFail0 5 (some 0) (some 1) = .error .fetchError ∧
    fetchFail0 1 = .ok payloadA := by decide

/-- C2 amended: a fetch failure (any exception of `get_daily_data`) on any
planned date aborts `get_intra_hr`: the per-date fetch calls are not
isolated, the first failing date's error propagates out of the list
comprehension, the remaining dates are not fetched, and no partial result
set is returned (the scheduler never returns `.ok` for such a plan; `main`
has no handler around `get_intra_hr` either, so the run is fatal). -/
theorem fetch_failure_aborts_plan (fetch : Int → Except PyError Payload)
    (today s e d : Int) (err : PyError)
    (hd : d ∈ daterange s e) (hfail : fetch d = .error err) :
    (∃ err', get_intra_hr fetch today (some s) (some e) = .error err') ∧
    ∀ res, get_intra_hr fetch today (some s) (some e) ≠ .ok res := by
  obtain ⟨err', herr⟩ := fetchAll_error_of_mem fetch (daterange s e) d err hd hfail
  have hg : get_intra_hr fetch today (some s) (some e) = fetchAll fetch (daterange s e) := rfl
  rw [hg, herr]
  refine ⟨⟨err', rfl⟩, ?_⟩
  intro res hres
  cases hres

/-- Witness for C2's amended statement at the plan `[0, 1]` with `fetchFail0`. -/
theorem fetch_failure_aborts_plan_witness :
    ((0 : Int) ∈ daterange 0 1 ∧ fetchFail0 0 = .error .fetchError) ∧
    ((∃ err', get_intra_hr fetchFail0 5 (some 0) (some 1) = .error err') ∧
     ∀ res, get_intra_hr fetchFail0 5 (some 0) (some 1) ≠ .ok res) :=
  ⟨⟨by decide, by decide⟩,
   fetch_failure_aborts_plan fetchFail0 5 0 1 0 .fetchError (by decide) (by decide)⟩

/-- C5: `get_most_recent_date` on a store with zero records returns the
default `date(2015, 12, 26)` — the caught-`AttributeError` path, since the
underlying query's `.first()` is `None` — and on a store with records it
returns the maximum stored date. -/
theorem resolve_watermark_default_and_max :
    get_most_recent_date [] = dateOrdinal 2015 12 26 ∧
    ∀ db : List HeartRateRow, storedDates db ≠ [] →
      get_most_recent_date db ∈ storedDates db ∧
      ∀ d ∈ storedDates db, d ≤ get_most_recent_date db :=
  ⟨rfl, fun db h => ⟨get_most_recent_date_mem db h, get_most_recent_date_ge db⟩⟩

/-- Witness for C5 on the spec's example store {2015-12-30, 2016-01-02}. -/
theorem resolve_watermark_default_and_max_witness :
    storedDates [rowDec30, rowJan02] ≠ [] ∧
    (get_most_recent_date [rowDec30, rowJan02] ∈ storedDates [rowDec30, rowJan02] ∧
     ∀ d ∈ storedDates [rowDec30, rowJan02],
       d ≤ get_most_recent_date [rowDec30, rowJan02]) :=
  ⟨by decide, resolve_watermark_default_and_max.2 [rowDec30, rowJan02] (by decide)⟩

/-- C6 counterexample: the resolver performs no comparison with the system
clock — if the store contains 2030-01-01 while the current system date is
2026-10-12, `get_most_recent_date` returns 2030-01-01, a date strictly in
the future, refuting the claim that it never returns a future date. -/
theorem resolve_watermark_future_counterexample :
    get_most_recent_date [rowFuture] = dateOrdinal 2030 1 1 ∧
    dateOrdinal 2026 10 12 < dateOrdinal 2030 1 1 := by decide

/-- C6 amended: `get_most_recent_date` never invents a date beyond the
store: whenever every stored date is at most the current system date and
the default 2015-12-26 is in the past (the normal regime — records are
created only for already-elapsed days), its result is at most the current
system date; it can exceed the system date only when a stored date already
does. -/
theorem resolve_watermark_not_future_unless_stored (db : List HeartRateRow)
    (today : Int)
    (hstore : ∀ d ∈ storedDates db, d ≤ today)
    (hepoch : dateOrdinal 2015 12 26 ≤ today) :
    get_most_recent_date db ≤ today := by
  unfold get_most_recent_date
  cases hsd : storedDates db with
  | nil => exact hepoch
  | cons a as =>
    show as.foldl max a ≤ today
    rcases foldl_max_mem as a with h1 | h1
    · rw [h1]
      refine hstore a ?_
      rw [hsd]
      exact List.mem_cons_self a as
    · refine hstore _ ?_
      rw [hsd]
      exact List.mem_cons_of_mem a h1

/-- Witness for C6's amended statement: a store holding 2015-12-30 seen on
system date 2016-01-02. -/
theorem resolve_watermark_not_future_unless_stored_witness :
    (∀ d ∈ storedDates [rowDec30], d ≤ dateOrdinal 2016 1 2) ∧
    dateOrdinal 2015 12 26 ≤ dateOrdinal 2016 1 2 ∧
    get_most_recent_date [rowDec30] ≤ dateOrdinal 2016 1 2 :=
  ⟨by decide, by decide,
   resolve_watermark_not_future_unless_stored [rowDec30] (dateOrdinal 2016 1 2)
     (by decide) (by decide)⟩

/-- C7 counterexample: from the empty store, a payload missing the
intraday-series key followed by a well-formed payload: the run aborts with
the uncaught `AttributeError` — the later date is never processed —
refuting the claim that the malformed date is skipped and the batch
continues with subsequent dates. -/
theorem malformed_payload_counterexample :
    processDays [] [payloadNoIntraday, payloadA] = .error .attributeError := by decide

/-- C7 amended: a payload missing a required field makes `add_hr_to_db`
raise (`KeyError`/`IndexError`/`AttributeError`, and in particular a
missing intraday-series key always yields an error), but that error is not
the caught `IntegrityError`, so the loop in `main` does not skip the date
and continue: the error propagates and aborts the processing of all
subsequent dates of the run. -/
theorem malformed_payload_aborts_run (db : List HeartRateRow) (p : Payload)
    (ps : List Payload) (e : PyError) (h : extractRow p = .error e) :
    processDays db (p :: ps) = .error e ∧
    ∀ q : Payload, q.activitiesHeartIntraday = none → ∃ e', extractRow q = .error e' := by
  refine ⟨?_, extractRow_error_of_no_intraday⟩
  have hne := extractRow_not_integrity p e h
  have hadd : add_hr_to_db db p = .error e := by
    unfold add_hr_to_db
    rw [h]
  cases e with
  | integrityError => exact absurd rfl hne
  | keyError => simp [processDays, hadd]
  | indexError => simp [processDays, hadd]
  | attributeError => simp [processDays, hadd]
  | zeroDivisionError => simp [processDays, hadd]
  | fetchError => simp [processDays, hadd]

/-- Witness for C7's amended statement: `payloadNoIntraday` aborts the run
before `payloadA` is reached. -/
theorem malformed_payload_aborts_run_witness :
    extractRow payloadNoIntraday = .error .attributeError ∧
    (processDays [] (payloadNoIntraday :: [payloadA]) = .error .attributeError ∧
     ∀ q : Payload, q.activitiesHeartIntraday = none → ∃ e', extractRow q = .error e') :=
  ⟨by decide,
   malformed_payload_aborts_run [] payloadNoIntraday [payloadA] .attributeError (by decide)⟩

/-- C8 counterexample: the negative rate −1 is accepted — `rate_limited(-1)`
builds the decorator (with minimum interval −1 second, so it never sleeps)
instead of rejecting the non-positive configuration with an error. -/
theorem rate_limited_negative_counterexample :
    rate_limited (-1) = .ok (-1) ∧ (-1 : ℚ) < 0 := by
  constructor
  · rw [rate_limited, if_neg (by norm_num)]
    norm_num
  · norm_num

/-- C8 amended: `rate_limited` rejects exactly the zero rate, and does so
with the `ZeroDivisionError` arising from `1.0 / float(maxPerSecond)`
rather than a dedicated configuration error; every nonzero rate — negative
ones included — is accepted with minimum interval `1 / maxPerSecond`, so in
particular construction succeeds for every positive rate. -/
theorem rate_limited_zero_only (m : ℚ) :
    (m = 0 → rate_limited m = .error .zeroDivisionError) ∧
    (m ≠ 0 → rate_limited m = .ok (1 / m)) := by
  constructor
  · intro h
    rw [rate_limited, if_pos h]
  · intro h
    rw [rate_limited, if_neg h]

/-- Witness for C8's amended statement at rates 0 and 1. -/
theorem rate_limited_zero_only_witness :
    ((0 : ℚ) = 0 ∧ rate_limited 0 = .error .zeroDivisionError) ∧
    ((1 : ℚ) ≠ 0 ∧ rate_limited 1 = .ok (1 / 1)) :=
  ⟨⟨rfl, (rate_limited_zero_only 0).1 rfl⟩,
   ⟨by norm_num, (rate_limited_zero_only 1).2 (by norm_num)⟩⟩

/-- C9: when the probe at client construction fails, exactly one
token-refresh call is made (`refreshCalls = 1`), the refreshed access and
refresh tokens are stored together in the client's credential record and
persisted as one full document overwriting `tokens.json`
(`fileWrites` is that single full record), the run's fetches all go through
the refreshed client (the whole run equals a run that starts from the
refreshed record with a healthy probe), and if the refresh itself fails its
error propagates out of `set_client` and out of `main` as fatal. -/
theorem probe_failure_single_refresh (tokens : Tokens) (p : RefreshParams)
    (e : PyError) (fetch : Tokens → Int → Except PyError Payload)
    (today : Int) (db : List HeartRateRow) :
    set_client tokens false (.ok p) = .ok
      { clientTokens := { tokens with ACCESS_TOKEN := p.access_token,
                                      REFRESH_TOKEN := p.refresh_token },
        fileWrites := [{ tokens with ACCESS_TOKEN := p.access_token,
                                     REFRESH_TOKEN := p.refresh_token }],
        refreshCalls := 1 } ∧
    mainRun tokens false (.ok p) fetch today db =
      mainRun { tokens with ACCESS_TOKEN := p.access_token,
                            REFRESH_TOKEN := p.refresh_token } true (.ok p) fetch today db ∧
    set_client tokens false (.error e) = .error e ∧
    mainRun tokens false (.error e) fetch today db = .error e :=
  ⟨rfl, rfl, rfl, rfl⟩

/-- C10: `main` passes `get_most_recent_date`'s result directly as
`start_date`: on a non-empty store whose watermark does not exceed
yesterday, the watermark date — itself a stored date — is the first element
of the planned range (not the day after it), and persisting a re-fetched
payload bearing that date is rejected as a duplicate (`IntegrityError`). -/
theorem plan_starts_at_watermark (db : List HeartRateRow) (today : Int)
    (p : Payload) (row : HeartRateRow)
    (hne : storedDates db ≠ [])
    (hplan : get_most_recent_date db ≤ today - 1)
    (hex : extractRow p = .ok row)
    (hdate : row.date = some (get_most_recent_date db)) :
    get_most_recent_date db ∈ storedDates db ∧
    (daterange (get_most_recent_date db) (today - 1)).head? =
      some (get_most_recent_date db) ∧
    add_hr_to_db db p = .error .integrityError := by
  refine ⟨get_most_recent_date_mem db hne, daterange_head _ _ hplan, ?_⟩
  unfold add_hr_to_db
  rw [hex]
  show insertRow db row = .error .integrityError
  unfold insertRow
  rw [hdate]
  simp [get_most_recent_date_mem db hne]

/-- Witness for C10: store `[rowA]` (date 100) on system date 102. -/
theorem plan_starts_at_watermark_witness :
    (storedDates [rowA] ≠ [] ∧ get_most_recent_date [rowA] ≤ 102 - 1 ∧
     extractRow payloadA = .ok rowA ∧ rowA.date = some (get_most_recent_date [rowA])) ∧
    (get_most_recent_date [rowA] ∈ storedDates [rowA] ∧
     (daterange (get_most_recent_date [rowA]) (102 - 1)).head? =
       some (get_most_recent_date [rowA]) ∧
     add_hr_to_db [rowA] payloadA = .error .integrityError) :=
  ⟨⟨by decide, by decide, by decide, by decide⟩,
   plan_starts_at_watermark [rowA] 102 payloadA rowA
     (by decide) (by decide) (by decide) (by decide)⟩
